import Mathlib

/-!
Verification development for the Shopify→Shopee sync bridge
(`shopee_product.py`, `app.py`).

The Python code is shallowly embedded: dictionaries become structures
(a missing key is `Option.none`), Python numbers become `ℚ`/`ℤ`,
`float()` on a string becomes an executable decimal parser that may
fail, and a Python exception escaping a function is `Except.error`.
Field accesses written `d.get(k, default)` in Python are embedded as
`Option.getD`.
-/

namespace GotoShopee

/-- A Python scalar as it may appear in a JSON product field:
`null`, a number (int or float, embedded exactly as `ℚ`), or a string. -/
inductive PyVal where
  | none
  | num (q : ℚ)
  | str (s : String)
deriving Repr, DecidableEq

/-- Python truthiness of a scalar: `None`, `0` and `""` are falsy. -/
def PyVal.truthy : PyVal → Bool
  | .none => false
  | .num q => q ≠ 0
  | .str s => s ≠ ""

/-- `x or y` for scalars (used by `float(v.get("weight", 0) or 0)`). -/
def pyOr (x y : PyVal) : PyVal := if x.truthy then x else y

/-- Split a character list at its leading run of ASCII digits. -/
def takeDigits : List Char → List Char × List Char
  | [] => ([], [])
  | c :: cs =>
      if c.isDigit then
        let (d, r) := takeDigits cs
        (c :: d, r)
      else ([], c :: cs)

/-- Numeric value of a digit run. -/
def digitsVal (l : List Char) : ℕ :=
  l.foldl (fun acc c => 10 * acc + (c.toNat - '0'.toNat)) 0

/-- Parse an optional sign, returning the sign and the rest. -/
def parseSign : List Char → ℤ × List Char
  | '+' :: cs => (1, cs)
  | '-' :: cs => (-1, cs)
  | cs => (1, cs)

/-- Parse the exponent part (after `e`/`E`) of a float literal. -/
def parseExp (cs : List Char) : Option ℤ :=
  let (s, cs) := parseSign cs
  let (d, cs) := takeDigits cs
  if d = [] ∨ cs ≠ [] then Option.none else some (s * digitsVal d)

/-- Strip leading and trailing whitespace, as Python `float()` does to
its string argument before parsing. -/
def trimChars (l : List Char) : List Char :=
  ((l.dropWhile Char.isWhitespace).reverse.dropWhile Char.isWhitespace).reverse

/-- Executable model of Python `float(string)` restricted to finite
decimal literals: optional sign, digits with an optional fractional
part, and an optional decimal exponent.  Returns `none` where Python's
`float()` raises `ValueError` (the embedding ignores `inf`/`nan`
spellings and underscore separators, which never occur in the
repository's data). -/
def parseFloat (s : String) : Option ℚ :=
  let cs := trimChars s.data
  let (sign, cs) := parseSign cs
  let (ip, cs) := takeDigits cs
  let (fp, cs) := match cs with
    | '.' :: r => takeDigits r
    | r => ([], r)
  if ip = [] ∧ fp = [] then Option.none
  else
    let mant : ℚ := (digitsVal ip : ℚ) + (digitsVal fp : ℚ) / (10 ^ fp.length)
    match cs with
    | [] => some (sign * mant)
    | 'e' :: r => (parseExp r).map fun e => sign * mant * (10 : ℚ) ^ e
    | 'E' :: r => (parseExp r).map fun e => sign * mant * (10 : ℚ) ^ e
    | _ => Option.none

/-- Python `float(x)` on an embedded scalar; `none` models a raised
`ValueError`/`TypeError`. -/
def pyFloat : PyVal → Option ℚ
  | .num q => some q
  | .str s => parseFloat s
  | .none => Option.none

/-- Python `round(x)`: round half to even (banker's rounding). -/
def pyRound (q : ℚ) : ℤ :=
  let f := ⌊q⌋
  let r := q - f
  if r < 1 / 2 then f
  else if 1 / 2 < r then f + 1
  else if f % 2 = 0 then f else f + 1

/-- Python `round(x, 2)`: round to two decimal places, half to even. -/
def pyRound2 (q : ℚ) : ℚ := (pyRound (q * 100) : ℚ) / 100

unseal Rat.mul Rat.inv Rat.add Rat.sub Rat.ofScientific in
example : pyRound (5 / 2) = 2 ∧ pyRound (7 / 2) = 4 ∧ pyRound (21 / 10) = 2 := by decide

unseal Rat.mul Rat.inv Rat.add Rat.sub Rat.ofScientific in
example : parseFloat "12.5" = some (25 / 2) ∧ parseFloat "abc" = Option.none ∧
    parseFloat "-3e2" = some (-300) ∧ parseFloat "" = Option.none := by decide

/-- `float(x)` in `Except` form: a parse failure is the raised
`ValueError`/`TypeError` escaping the caller. -/
def pyFloatE (v : PyVal) : Except String ℚ :=
  match pyFloat v with
  | some q => Except.ok q
  | Option.none =>
      match v with
      | .str _ => Except.error ("could not convert string to float")
      | _ => Except.error ("float() argument must be a string or a real number")

/-- Python `s[:n]` on a string (a slice of code points). -/
def strTake (n : ℕ) (s : String) : String := String.mk (s.data.take n)

/-- ASCII lowering of a string, modelling Python `str.lower()` on the
ASCII-plus-CJK names this repository compares (CJK characters have no
case and are unaffected). -/
def lowerStr (s : String) : String := String.mk (s.data.map Char.toLower)

/-- Contiguous-subsequence test on character lists. -/
def hasInfix : List Char → List Char → Bool
  | hay, sub =>
    if sub.isPrefixOf hay then true
    else
      match hay with
      | [] => false
      | _ :: t => hasInfix t sub

/-- Python `sub in hay` substring containment. -/
def containsStr (hay sub : String) : Bool := hasInfix hay.data sub.data

/- ===== find_country_of_origin_attribute (shopee_product.py lines 122-146) ===== -/

/-- One candidate value of a category attribute, as returned by the
marketplace attribute API.  A missing name key is embedded as `""`
(the code reads them with `.get(key, "")`); `value_id` keeps its
missing-key case as `none` (read with `.get("value_id", 0)`). -/
structure CatAttrValue where
  original_value_name : String
  display_value_name : String
  value_id : Option ℤ
deriving Repr, DecidableEq

/-- One category attribute from the marketplace attribute API. -/
structure CatAttr where
  original_attribute_name : String
  display_attribute_name : String
  attribute_id : Option ℤ
  attribute_value_list : List CatAttrValue
deriving Repr, DecidableEq

/-- The resolved origin attribute returned by
`find_country_of_origin_attribute`. -/
structure OriginAttr where
  attribute_id : Option ℤ
  value_id : ℤ
  original_value_name : String
deriving Repr, DecidableEq

/-- Keyword set used to recognise a country-of-origin attribute. -/
def country_keywords : List String := ["country", "origin", "產地", "原產地"]

/-- Inner loop of `find_country_of_origin_attribute`: first value whose
combined name contains "japan" or "日本" gives its id (missing id read
as 0); no match leaves the sentinel 0. -/
def findJapanValue : List CatAttrValue → ℤ
  | [] => 0
  | v :: vs =>
      let val_name := lowerStr (v.original_value_name ++ " " ++ v.display_value_name)
      if containsStr val_name ("japan") || containsStr val_name ("日本") then
        v.value_id.getD 0
      else findJapanValue vs

/-- `find_country_of_origin_attribute` from shopee_product.py: scan the
attributes in order and return the first whose combined
original+display name (lower-cased) contains one of
`country_keywords`, together with the id of its first Japan-named
value (0 when none matches); `none` when no attribute matches. -/
def find_country_of_origin_attribute : List CatAttr → Option OriginAttr
  | [] => Option.none
  | attr :: rest =>
      let attr_name := lowerStr
        (attr.original_attribute_name ++ " " ++ attr.display_attribute_name)
      if country_keywords.any (fun k => containsStr attr_name k) then
        some { attribute_id := attr.attribute_id,
               value_id := findJapanValue attr.attribute_value_list,
               original_value_name := "日本" }
      else find_country_of_origin_attribute rest

/- ===== Source (Shopify) product model ===== -/

/-- One source variant.  `price` and `weight` are raw JSON scalars
(the code feeds them to `float()`); `none` on a field means the key is
absent or null, which the code treats identically in every read it
performs. -/
structure Variant where
  price : Option PyVal
  weight : Option PyVal
  weight_unit : Option String
  inventory_quantity : Option ℤ
  option1 : Option String
  option2 : Option String
deriving Repr, DecidableEq

/-- One declared product option (a name plus its ordered value list). -/
structure ProductOption where
  name : Option String
  values : List String
deriving Repr, DecidableEq

/-- A source product as consumed by the converter and the sync loop.
`images` holds each image dict's `src` value (`none` when absent). -/
structure ShopifyProduct where
  id : Option ℤ
  title : Option String
  body_html : Option String
  vendor : Option String
  variants : List Variant
  options : List ProductOption
  images : List (Option String)
deriving Repr, DecidableEq

/- ===== Destination (Shopee) listing model ===== -/

/-- One tier of the destination variation schema. -/
structure TierVariation where
  name : String
  option_list : List String
deriving Repr, DecidableEq

/-- One per-combination model entry. -/
structure ModelEntry where
  tier_index : List ℕ
  normal_stock : ℤ
  original_price : ℤ
deriving Repr, DecidableEq

/-- One value carried by an attribute assignment. -/
structure AttrValue where
  value_id : ℤ
  original_value_name : Option String
deriving Repr, DecidableEq

/-- One attribute assignment on the created listing. -/
structure ShopeeAttr where
  attribute_id : ℤ
  attribute_value_list : List AttrValue
deriving Repr, DecidableEq

/-- The preorder sub-dict of the listing. -/
structure PreOrder where
  is_pre_order : Bool
  days_to_ship : Option ℤ
deriving Repr, DecidableEq, Inhabited

/-- The listing payload built by `shopify_to_shopee_product`.
`normal_stock` is `none` when the key was deleted (multi-variant
path); `tier_variation`/`model`/`days_to_ship` are `none` when the key
is never set.  `seller_stock` keeps only each entry's `stock` number.
`logistic_ids` holds the ids of the enabled logistics channels. -/
structure ShopeeProduct where
  original_price : ℤ
  description : String
  item_name : String
  normal_stock : Option ℤ
  seller_stock : List ℤ
  category_id : ℤ
  image_id_list : List String
  weight : ℚ
  package_length : ℤ
  package_width : ℤ
  package_height : ℤ
  logistic_ids : List ℤ
  condition : String
  item_status : String
  brand_id : ℤ
  brand_name : String
  tier_variation : Option (List TierVariation)
  model : Option (List ModelEntry)
  pre_order : PreOrder
  days_to_ship : Option ℤ
  attribute_list : List ShopeeAttr
deriving Repr, DecidableEq, Inhabited

/- ===== shopify_to_shopee_product (shopee_product.py lines 261-552) ===== -/

/-- The marketing tag prepended to every title (`title_prefix` in the
source). -/
def titleLead : String := "日本代購 日本直送 GOYOUTATI "

/-- The tag prepended to every description (`description_prefix`). -/
def descriptionLead : String := "日本代購 日本直送 GOYOUTATI\n\n"

/-- State machine equivalent of `re.sub(r'<[^>]+>', '', s)`: drop every
maximal `<...>` group with at least one non-`>` character inside; an
unmatched `<` (no later `>`, or an immediately following `>`) stays
literal.  The first argument accumulates, reversed, the characters
read since an as-yet-unclosed `<` (empty = not inside a candidate
tag). -/
def stripTagsGo : List Char → List Char → List Char
  | pend, [] => pend.reverse
  | [], c :: rest =>
      if c = '<' then stripTagsGo ['<'] rest
      else c :: stripTagsGo [] rest
  | p :: ps, c :: rest =>
      if c = '>' then
        if ps = [] then '<' :: '>' :: stripTagsGo [] rest
        else stripTagsGo [] rest
      else stripTagsGo (c :: p :: ps) rest

/-- HTML-tag removal used on the product description. -/
def stripHtml (s : String) : String := String.mk (stripTagsGo [] s.data)

/-- Multi-variant detection (line 284): more than one variant, or a
single variant whose `option1` is not the "no option" sentinel. -/
def hasVariants (variants : List Variant) : Bool :=
  variants.length > 1 ||
    (match variants with
     | [v] =>
         match v.option1 with
         | some s => s != "Default Title" && s != "預設標題"
         | Option.none => false
     | _ => false)

/-- Per-variant stock rule (lines 312-319 and 430-434, identical in
both places): missing or null inventory means the untracked sentinel
900, negative inventory clamps to 0. -/
def variantStock (v : Variant) : ℤ :=
  match v.inventory_quantity with
  | Option.none => 900
  | some n => if n < 0 then 0 else n

/-- Tier-variation construction (lines 381-405): up to two tiers from
the first two declared options, each kept only if its value list is
non-empty; names and values are truncated to 20 code points. -/
def tierVariationOf (options : List ProductOption) : List TierVariation :=
  (match options.head? with
   | some opt1 =>
       if opt1.values = [] then []
       else [{ name := strTake 20 (opt1.name.getD "規格"),
               option_list := opt1.values.map (strTake 20) }]
   | Option.none => []) ++
  (match options[1]? with
   | some opt2 =>
       if opt2.values = [] then []
       else [{ name := strTake 20 (opt2.name.getD "規格2"),
               option_list := opt2.values.map (strTake 20) }]
   | Option.none => [])

/-- Index of the last occurrence of `s` in `l` — the lookup value of
the Python dict built by `opt_index_map[opt] = idx` in ascending
order, where a duplicate key keeps the later index. -/
def lastIdxOf (l : List String) (s : String) : Option ℕ :=
  l.enum.foldl (fun acc p => if p.2 = s then some p.1 else acc) Option.none

/-- Tier-index computation for one variant (lines 437-444): each
present, truthy option value is truncated to 20 code points and looked
up in the corresponding tier's option list; only values that resolve
contribute an index. -/
def tierIndexOf (tv : List TierVariation) (v : Variant) : List ℕ :=
  let map1 := ((tv.head?).map TierVariation.option_list).getD []
  let map2 := ((tv[1]?).map TierVariation.option_list).getD []
  let opt1_val : Option String :=
    match v.option1 with
    | some s => if s ≠ "" then some (strTake 20 s) else Option.none
    | Option.none => Option.none
  let opt2_val : Option String :=
    match v.option2 with
    | some s => if s ≠ "" then some (strTake 20 s) else Option.none
    | Option.none => Option.none
  (match opt1_val with
   | some s => match lastIdxOf map1 s with
       | some i => [i]
       | Option.none => []
   | Option.none => []) ++
  (match opt2_val with
   | some s => match lastIdxOf map2 s with
       | some i => [i]
       | Option.none => []
   | Option.none => [])

/-- Body of the model loop (lines 423-453) for one variant: convert its
price (the `float()` call may raise), apply the under-10 fallback to
the product-level price (or 100), and keep the entry together with its
seller-stock number only when the tier index is non-empty. -/
def variantModelEntry (exchange_rate markup_rate : ℚ) (price : ℤ)
    (tv : List TierVariation) (v : Variant) :
    Except String (Option (ModelEntry × ℤ)) := do
  let vp ← pyFloatE (v.price.getD (.num 0))
  let variant_price := pyRound (vp * exchange_rate * markup_rate)
  let variant_price :=
    if variant_price < 10 then (if price ≥ 10 then price else 100) else variant_price
  let variant_stock := variantStock v
  let tier_index := tierIndexOf tv v
  pure (if tier_index = [] then Option.none
        else some ({ tier_index := tier_index,
                     normal_stock := variant_stock,
                     original_price := variant_price }, variant_stock))

/-- The food category ids (lines 479-490). -/
def FOOD_CATEGORY_IDS : List ℤ :=
  [100629, 100656, 100630, 100631, 100632, 100633, 100634, 100635, 100636, 100637]

/-- The fixed food attribute template (lines 494-547). -/
def foodAttributeList : List ShopeeAttr :=
  [ { attribute_id := 102384, attribute_value_list := [⟨17007, Option.none⟩] },
    { attribute_id := 101021, attribute_value_list := [⟨5549, Option.none⟩] },
    { attribute_id := 100095, attribute_value_list := [⟨613, Option.none⟩] },
    { attribute_id := 100010, attribute_value_list := [⟨568, Option.none⟩] },
    { attribute_id := 100975,
      attribute_value_list := [⟨0, some "Omishonin Co., Ltd."⟩] },
    { attribute_id := 100976,
      attribute_value_list :=
        [⟨0, some "New Ryogoku Heights 303, 1-28-4 Midori, Sumida-ku, Tokyo, 130-0021, Japan"⟩] },
    { attribute_id := 100977, attribute_value_list := [⟨0, some "+81 0366593195"⟩] },
    { attribute_id := 100974, attribute_value_list := [⟨0, some "詳見商品包裝"⟩] },
    { attribute_id := 100999, attribute_value_list := [⟨0, some "1"⟩] },
    { attribute_id := 102564, attribute_value_list := [⟨0, some "詳見商品包裝"⟩] },
    { attribute_id := 102565, attribute_value_list := [⟨0, some "詳見商品包裝"⟩] },
    { attribute_id := 102566,
      attribute_value_list := [⟨0, some "本產品不含基因改造成分"⟩] },
    { attribute_id := 102567, attribute_value_list := [⟨0, some "詳見商品包裝"⟩] } ]

/-- Kilogram conversion factor for a `weight_unit` string, read off
the branch chain of lines 296-304 (unrecognised units, `"kg"`
included, fall through to factor 1). -/
def weightUnitFactor (weight_unit : String) : ℚ :=
  if weight_unit = "g" ∨ weight_unit = "grams" then 1 / 1000
  else if weight_unit = "lb" then 0.453592
  else if weight_unit = "oz" then 0.0283495
  else 1

/-- Lines 286-308: base price and kilogram weight from the first
variant; a product without variants keeps price 0 and the 0.5 kg
default.  Both `float()` calls can raise. -/
def firstVariantPW (variants : List Variant) (exchange_rate markup_rate : ℚ) :
    Except String (ℤ × ℚ) :=
  match variants with
  | [] => pure ((0 : ℤ), (1 / 2 : ℚ))
  | first_variant :: _ => do
      let shopify_price ← pyFloatE (first_variant.price.getD (.num 0))
      let price := pyRound (shopify_price * exchange_rate * markup_rate)
      let shopify_weight ← pyFloatE (pyOr (first_variant.weight.getD (.num 0)) (.num 0))
      let weight := shopify_weight * weightUnitFactor (first_variant.weight_unit.getD "kg")
      let weight := if weight < 0.1 then 0.1 else weight
      pure (price, weight)

/-- The dict literal of lines 349-378 (single-variant shape).  The
`pre_order` field is a placeholder: the key does not exist yet in the
Python dict and is unconditionally written by lines 465-475. -/
def baseListing (shopify_product : ShopifyProduct) (category_id : ℤ)
    (image_ids : List String) (price : ℤ) (weight : ℚ) : ShopeeProduct :=
  let stock : ℤ :=
    match shopify_product.variants with
    | [] => 900
    | first_variant :: _ => variantStock first_variant
  let description0 := (shopify_product.body_html).getD ""
  let description1 := if description0 ≠ "" then stripHtml description0 else description0
  let description2 :=
    if description1 = "" then (shopify_product.title).getD "商品描述" else description1
  let brand_name := (shopify_product.vendor).getD ""
  { original_price := if price ≥ 10 then price else 100
    description := strTake 3000 (descriptionLead ++ description2)
    item_name := strTake 120 (titleLead ++ (shopify_product.title).getD "商品")
    normal_stock := some stock
    seller_stock := [stock]
    category_id := category_id
    image_id_list := image_ids
    weight := pyRound2 weight
    package_length := 10
    package_width := 10
    package_height := 10
    logistic_ids := [70022]
    condition := "NEW"
    item_status := "NORMAL"
    brand_id := 0
    brand_name := if brand_name ≠ "" then brand_name else "No Brand"
    tier_variation := Option.none
    model := Option.none
    pre_order := ⟨false, Option.none⟩
    days_to_ship := Option.none
    attribute_list := [] }

/-- The model loop of lines 420-453: walk the variants in order,
evaluating each through `variantModelEntry` (the first malformed price
raises out of the whole loop, as in the source) and appending to the
model list and the seller-stock list exactly when the variant's tier
index is non-empty. -/
def modelLoop (exchange_rate markup_rate : ℚ) (price : ℤ)
    (tv : List TierVariation) : List Variant → Except String (List ModelEntry × List ℤ)
  | [] => pure ([], [])
  | v :: vs => do
      let entry ← variantModelEntry exchange_rate markup_rate price tv v
      let rest ← modelLoop exchange_rate markup_rate price tv vs
      match entry with
      | some (me, st) => pure (me :: rest.1, st :: rest.2)
      | Option.none => pure rest

/-- The multi-variant block (lines 381-462): when the product is
multi-variant and declares options, build the tier variation and the
model list and, when both are non-empty, install them, replace the
seller stock and delete `normal_stock`. -/
def applyTierModels (exchange_rate markup_rate : ℚ) (price : ℤ)
    (variants : List Variant) (options : List ProductOption)
    (has_variants : Bool) (base : ShopeeProduct) : Except String ShopeeProduct :=
  if has_variants ∧ options ≠ [] then do
    let tier_variation := tierVariationOf options
    let ms ← modelLoop exchange_rate markup_rate price tier_variation variants
    if tier_variation ≠ [] ∧ ms.1 ≠ [] then
      pure { base with
               tier_variation := some tier_variation
               model := some ms.1
               seller_stock := ms.2
               normal_stock := Option.none }
    else pure base
  else pure base

/-- Lines 465-475 and 477-551: the preorder block and the
category-keyed attribute template, applied to the finished dict. -/
def finishListing (pre_order : Bool) (days_to_ship : ℤ) (category_id : ℤ)
    (listing : ShopeeProduct) : ShopeeProduct :=
  let withPre :=
    if pre_order then
      { listing with pre_order := ⟨true, some days_to_ship⟩ }
    else
      { listing with pre_order := ⟨false, Option.none⟩, days_to_ship := some 2 }
  { withPre with
      attribute_list :=
        if category_id ∈ FOOD_CATEGORY_IDS then foodAttributeList else [] }

/-- `shopify_to_shopee_product` (lines 261-552).  Every `float()` call
of the source runs inside the `Except` monad; an `Except.error` is the
corresponding Python exception escaping the (otherwise pure)
function.  `collection_title` and `country_origin_attr` are accepted,
as in the source, and never read. -/
def shopify_to_shopee_product (shopify_product : ShopifyProduct)
    (category_id : ℤ) (image_ids : List String)
    (collection_title : String) (country_origin_attr : Option OriginAttr)
    (exchange_rate markup_rate : ℚ) (pre_order : Bool) (days_to_ship : ℤ) :
    Except String ShopeeProduct := do
  let variants := shopify_product.variants
  let options := shopify_product.options
  let has_variants := hasVariants variants
  let pw ← firstVariantPW variants exchange_rate markup_rate
  let base := baseListing shopify_product category_id image_ids pw.1 pw.2
  let withModels ← applyTierModels exchange_rate markup_rate pw.1
    variants options has_variants base
  pure (finishListing pre_order days_to_ship category_id withModels)

/- ===== api_sync_collection (app.py lines 944-1189) ===== -/

/-- Outcome of one `get_attributes` call (that function catches its own
exceptions and always returns a dict). -/
structure AttrsOutcome where
  success : Bool
  attributes : List CatAttr
deriving Repr, DecidableEq

/-- Outcome of `get_products_in_collection`. -/
structure FetchOutcome where
  success : Bool
  products : List ShopifyProduct
  error : Option String
deriving Repr, DecidableEq

/-- Outcome of one `upload_image` call. -/
structure UploadOutcome where
  success : Bool
  image_id : Option String
  error : Option String
deriving Repr, DecidableEq

/-- Outcome of one `create_product` call. -/
structure CreateOutcome where
  success : Bool
  item_id : Option ℤ
  error : Option String
deriving Repr, DecidableEq

/-- The sync loop's effectful collaborators, abstracted as
deterministic oracles giving the outcome of each outbound call.  All
four Python wrappers catch their own exceptions internally and return
result dicts, so the oracles are total. -/
structure SyncEnv where
  attrs_result : AttrsOutcome
  products_result : FetchOutcome
  upload : String → UploadOutcome
  create : ShopeeProduct → CreateOutcome

/-- The request parameters read by `api_sync_collection` (lines
953-960) that influence the modelled behaviour. -/
structure SyncConfig where
  collection_title : String
  category_id : ℤ
  logistic_ids : List ℤ
  exchange_rate : ℚ
  markup_rate : ℚ
deriving Repr, DecidableEq

/-- One per-product result dict (lines 1038-1045). -/
structure ProductResult where
  shopify_id : Option ℤ
  title : Option String
  success : Bool
  shopee_item_id : Option ℤ
  error : Option String
deriving Repr, DecidableEq

/-- Ghost instrumentation recorded alongside each product's result:
how many image uploads were attempted, and the `image_id_list` of the
listing passed to `create_product` (`none` when `create_product` was
never called for the product). -/
structure ProcTrace where
  uploadsAttempted : ℕ
  createdWith : Option (List String)
deriving Repr, DecidableEq

/-- The `summary` dict of the success response (lines 1173-1177). -/
structure Summary where
  total : ℕ
  success : ℕ
  failed : ℕ
deriving Repr, DecidableEq

/-- The JSON response of `api_sync_collection`; `results`/`summary`
are `none` on the response shapes that do not carry those keys. -/
structure SyncResponse where
  success : Bool
  error : Option String
  results : Option (List ProductResult)
  summary : Option Summary
deriving Repr, DecidableEq

/-- Line 1052: the product's truthy image source URLs. -/
def imageUrlsOf (product : ShopifyProduct) : List String :=
  product.images.filterMap (fun src =>
    match src with
    | some s => if s ≠ "" then some s else Option.none
    | Option.none => Option.none)

/-- Lines 1063-1089: upload at most the first 9 image URLs and collect
the non-empty media handles of the successful uploads, in order. -/
def collectedHandles (env : SyncEnv) (image_urls : List String) : List String :=
  (image_urls.take 9).filterMap (fun img_url =>
    let upload_result := env.upload img_url
    if upload_result.success then
      match upload_result.image_id with
      | some image_id => if image_id ≠ "" then some image_id else Option.none
      | Option.none => Option.none
    else Option.none)

/-- The loop body for one product (lines 1030-1165).  The trailing
per-product `except` clause is modelled by the `Except.error` branch
of the conversion — the only raise-capable statement in the body, the
collaborator wrappers being total — which records the exception
message as the product's failed result and lets the loop continue. -/
def processProduct (env : SyncEnv) (cfg : SyncConfig) (coa : Option OriginAttr)
    (product : ShopifyProduct) : ProductResult × ProcTrace :=
  let product_result : ProductResult :=
    { shopify_id := product.id, title := product.title, success := false,
      shopee_item_id := Option.none, error := Option.none }
  let image_urls := imageUrlsOf product
  if image_urls = [] then
    ({ product_result with error := some "商品沒有圖片" }, ⟨0, Option.none⟩)
  else
    let attempted := image_urls.take 9
    let image_ids := collectedHandles env image_urls
    if image_ids = [] then
      ({ product_result with error := some "沒有成功上傳任何圖片" },
       ⟨attempted.length, Option.none⟩)
    else
      match shopify_to_shopee_product product cfg.category_id image_ids
          cfg.collection_title coa cfg.exchange_rate cfg.markup_rate true 4 with
      | Except.error e =>
          ({ product_result with error := some e }, ⟨attempted.length, Option.none⟩)
      | Except.ok sp =>
          let sp := if cfg.logistic_ids ≠ [] then
            { sp with logistic_ids := cfg.logistic_ids } else sp
          let create_result := env.create sp
          if create_result.success then
            ({ product_result with
                 success := true
                 shopee_item_id := create_result.item_id },
             ⟨attempted.length, some sp.image_id_list⟩)
          else
            ({ product_result with error := create_result.error },
             ⟨attempted.length, some sp.image_id_list⟩)

/-- Step 0 of the handler (lines 977-997): the attribute query is
non-fatal — on failure the origin attribute is simply `None`. -/
def originAttrFor (env : SyncEnv) : Option OriginAttr :=
  if env.attrs_result.success then
    find_country_of_origin_attribute env.attrs_result.attributes
  else Option.none

/-- `api_sync_collection` (lines 944-1189), relative to a collaborator
environment: resolve the origin attribute (non-fatally), fetch the
collection's products (fatally on failure or emptiness), process each
product in order, and summarise.  Returns the JSON response together
with the ghost per-product traces. -/
def api_sync_collection (env : SyncEnv) (cfg : SyncConfig) :
    SyncResponse × List ProcTrace :=
  let country_origin_attr := originAttrFor env
  if ¬ env.products_result.success then
    ({ success := false,
       error := some ("無法獲取 Shopify 商品: " ++ (env.products_result.error).getD "None"),
       results := Option.none, summary := Option.none }, [])
  else
    let products := env.products_result.products
    if products = [] then
      ({ success := false, error := some "系列中沒有商品",
         results := Option.none, summary := Option.none }, [])
    else
      let processed := products.map (processProduct env cfg country_origin_attr)
      let results := processed.map Prod.fst
      let success_count := (results.filter (fun r => r.success)).length
      ({ success := decide (success_count > 0), error := Option.none,
         results := some results,
         summary := some ⟨results.length, success_count, results.length - success_count⟩ },
       processed.map Prod.snd)

/- ===== General lemmas about the embedding ===== -/

/-- A successful monadic bind in `Except` factors through a successful
first step. -/
theorem except_bind_ok {α β : Type} {e : Except String α}
    {f : α → Except String β} {b : β}
    (h : e >>= f = Except.ok b) : ∃ a, e = Except.ok a ∧ f a = Except.ok b := by
  cases e with
  | error err => exact absurd h (by simp [Bind.bind, Except.bind])
  | ok a => exact ⟨a, rfl, by simpa [Bind.bind, Except.bind] using h⟩

/-- `pyRound` never drops below the floor. -/
theorem pyRound_ge_floor (q : ℚ) : ⌊q⌋ ≤ pyRound q := by
  simp only [pyRound]
  split
  · exact le_refl _
  · split
    · exact Int.le_add_one (le_refl _)
    · split
      · exact le_refl _
      · exact Int.le_add_one (le_refl _)

/-- `pyRound` respects integer lower bounds. -/
theorem le_pyRound_of_le {n : ℤ} {q : ℚ} (h : (n : ℚ) ≤ q) : n ≤ pyRound q :=
  le_trans (Int.le_floor.mpr h) (pyRound_ge_floor q)

/-- The finishing step does not touch the title. -/
theorem finishListing_item_name (po : Bool) (dts cat : ℤ) (l : ShopeeProduct) :
    (finishListing po dts cat l).item_name = l.item_name := by
  cases po <;> simp [finishListing]

/-- The finishing step does not touch the base price. -/
theorem finishListing_original_price (po : Bool) (dts cat : ℤ) (l : ShopeeProduct) :
    (finishListing po dts cat l).original_price = l.original_price := by
  cases po <;> simp [finishListing]

/-- The finishing step does not touch the weight. -/
theorem finishListing_weight (po : Bool) (dts cat : ℤ) (l : ShopeeProduct) :
    (finishListing po dts cat l).weight = l.weight := by
  cases po <;> simp [finishListing]

/-- The finishing step does not touch the model list. -/
theorem finishListing_model (po : Bool) (dts cat : ℤ) (l : ShopeeProduct) :
    (finishListing po dts cat l).model = l.model := by
  cases po <;> simp [finishListing]

/-- The finishing step does not touch the seller stock. -/
theorem finishListing_seller_stock (po : Bool) (dts cat : ℤ) (l : ShopeeProduct) :
    (finishListing po dts cat l).seller_stock = l.seller_stock := by
  cases po <;> simp [finishListing]

/-- The finishing step does not touch the image list. -/
theorem finishListing_image_id_list (po : Bool) (dts cat : ℤ) (l : ShopeeProduct) :
    (finishListing po dts cat l).image_id_list = l.image_id_list := by
  cases po <;> simp [finishListing]

/-- The finishing step installs the category-keyed attribute template. -/
theorem finishListing_attribute_list (po : Bool) (dts cat : ℤ) (l : ShopeeProduct) :
    (finishListing po dts cat l).attribute_list
      = (if cat ∈ FOOD_CATEGORY_IDS then foodAttributeList else []) := by
  cases po <;> simp [finishListing]

/-- A successful conversion decomposes into its three stages. -/
theorem conv_ok_elim {p : ShopifyProduct} {cat : ℤ} {imgs : List String}
    {ct : String} {coa : Option OriginAttr} {er mr : ℚ} {po : Bool} {dts : ℤ}
    {sp : ShopeeProduct}
    (h : shopify_to_shopee_product p cat imgs ct coa er mr po dts = Except.ok sp) :
    ∃ pw wm, firstVariantPW p.variants er mr = Except.ok pw ∧
      applyTierModels er mr pw.1 p.variants p.options (hasVariants p.variants)
        (baseListing p cat imgs pw.1 pw.2) = Except.ok wm ∧
      sp = finishListing po dts cat wm := by
  unfold shopify_to_shopee_product at h
  obtain ⟨pw, h1, h⟩ := except_bind_ok h
  obtain ⟨wm, h2, h⟩ := except_bind_ok h
  refine ⟨pw, wm, h1, h2, ?_⟩
  simpa [Pure.pure, Except.pure] using h.symm

/-- A successful multi-variant block either leaves the dict unchanged
or installs the tier variation and model list built by the loop. -/
theorem applyTierModels_ok_cases {er mr : ℚ} {price : ℤ}
    {variants : List Variant} {options : List ProductOption} {hv : Bool}
    {base out : ShopeeProduct}
    (h : applyTierModels er mr price variants options hv base = Except.ok out) :
    out = base ∨
      ∃ ms, modelLoop er mr price (tierVariationOf options) variants = Except.ok ms ∧
        tierVariationOf options ≠ [] ∧ ms.1 ≠ [] ∧
        out = { base with
                  tier_variation := some (tierVariationOf options)
                  model := some ms.1
                  seller_stock := ms.2
                  normal_stock := Option.none } := by
  unfold applyTierModels at h
  split at h
  · obtain ⟨ms, h1, h⟩ := except_bind_ok h
    split at h
    · right
      refine ⟨ms, h1, ?_, ?_, ?_⟩
      · exact (by assumption : tierVariationOf options ≠ [] ∧ ms.1 ≠ []).1
      · exact (by assumption : tierVariationOf options ≠ [] ∧ ms.1 ≠ []).2
      · simpa [Pure.pure, Except.pure] using h.symm
    · left; simpa [Pure.pure, Except.pure] using h.symm
  · left; simpa [Pure.pure, Except.pure] using h.symm

/-- What one loop iteration can return: `none` exactly when the tier
index is empty, otherwise the entry carrying that tier index and the
variant's stock. -/
theorem variantModelEntry_ok {er mr : ℚ} {price : ℤ} {tv : List TierVariation}
    {v : Variant} {res : Option (ModelEntry × ℤ)}
    (h : variantModelEntry er mr price tv v = Except.ok res) :
    (tierIndexOf tv v = [] ∧ res = Option.none) ∨
      (tierIndexOf tv v ≠ [] ∧ ∃ vprice,
        res = some ({ tier_index := tierIndexOf tv v,
                      normal_stock := variantStock v,
                      original_price := vprice }, variantStock v)) := by
  unfold variantModelEntry at h
  obtain ⟨q, hq, h⟩ := except_bind_ok h
  have hres : res = (if tierIndexOf tv v = [] then Option.none
      else some ({ tier_index := tierIndexOf tv v,
                   normal_stock := variantStock v,
                   original_price :=
                     if pyRound (q * er * mr) < 10 then (if price ≥ 10 then price else 100)
                     else pyRound (q * er * mr) }, variantStock v)) := by
    simpa [Pure.pure, Except.pure] using h.symm
  by_cases ht : tierIndexOf tv v = []
  · left; exact ⟨ht, by simp [hres, ht]⟩
  · right
    refine ⟨ht, if pyRound (q * er * mr) < 10 then (if price ≥ 10 then price else 100)
        else pyRound (q * er * mr), ?_⟩
    simp [hres, ht]

/-- The lists built by a successful model loop, characterised as
filters of the variant list: a variant contributes (its tier index,
its stock) exactly when its tier index is non-empty. -/
theorem modelLoop_ok_spec {er mr : ℚ} {price : ℤ} {tv : List TierVariation} :
    ∀ {variants : List Variant} {r : List ModelEntry × List ℤ},
    modelLoop er mr price tv variants = Except.ok r →
    r.1.map ModelEntry.tier_index
        = variants.filterMap (fun v =>
            if tierIndexOf tv v = [] then Option.none else some (tierIndexOf tv v)) ∧
    r.2 = variants.filterMap (fun v =>
            if tierIndexOf tv v = [] then Option.none else some (variantStock v)) ∧
    r.1.map ModelEntry.normal_stock = r.2 := by
  intro variants
  induction variants with
  | nil =>
      intro r h
      have : r = ([], []) := by
        simpa [modelLoop, Pure.pure, Except.pure] using h.symm
      simp [this]
  | cons v vs ih =>
      intro r h
      unfold modelLoop at h
      obtain ⟨entry, he, h⟩ := except_bind_ok h
      obtain ⟨rest, hr, h⟩ := except_bind_ok h
      obtain ⟨h1, h2, h3⟩ := ih hr
      rcases variantModelEntry_ok he with ⟨ht, hnone⟩ | ⟨ht, vprice, hsome⟩
      · subst hnone
        have : r = rest := by simpa [Pure.pure, Except.pure] using h.symm
        subst this
        simp [ht, h1, h2, h3]
      · subst hsome
        have : r = ({ tier_index := tierIndexOf tv v,
                      normal_stock := variantStock v,
                      original_price := vprice } :: rest.1,
                    variantStock v :: rest.2) := by
          simpa [Pure.pure, Except.pure] using h.symm
        subst this
        simp [ht, h1, h2, h3]

/- ===== C7: find_country_of_origin_attribute ===== -/

/-- The attribute-matching condition of line 128, as a predicate. -/
def attrNameMatches (attr : CatAttr) : Bool :=
  let attr_name := lowerStr
    (attr.original_attribute_name ++ " " ++ attr.display_attribute_name)
  country_keywords.any (fun k => containsStr attr_name k)

/-- The Japan-value condition of line 136, as a predicate. -/
def valNameJapan (v : CatAttrValue) : Bool :=
  let val_name := lowerStr (v.original_value_name ++ " " ++ v.display_value_name)
  containsStr val_name ("japan") || containsStr val_name ("日本")

/-- Unfolding step of the inner value scan. -/
theorem findJapanValue_cons (v : CatAttrValue) (vs : List CatAttrValue) :
    findJapanValue (v :: vs)
      = if valNameJapan v then v.value_id.getD 0 else findJapanValue vs := by
  simp only [findJapanValue, valNameJapan]

/-- Unfolding step of the attribute scan. -/
theorem findOrigin_cons (attr : CatAttr) (rest : List CatAttr) :
    find_country_of_origin_attribute (attr :: rest)
      = if attrNameMatches attr then
          some { attribute_id := attr.attribute_id,
                 value_id := findJapanValue attr.attribute_value_list,
                 original_value_name := "日本" }
        else find_country_of_origin_attribute rest := by
  simp only [find_country_of_origin_attribute, attrNameMatches]

/-- The inner value scan picks the first Japan-named value in order
(its missing id read as 0) and falls back to the sentinel 0. -/
theorem findJapanValue_spec (vals : List CatAttrValue) :
    findJapanValue vals =
      (match vals.find? valNameJapan with
       | some v => v.value_id.getD 0
       | Option.none => 0) := by
  induction vals with
  | nil => simp [findJapanValue]
  | cons v vs ih =>
      cases hv : valNameJapan v
      · rw [findJapanValue_cons, if_neg (by simp [hv]), ih,
          List.find?_cons_of_neg _ (by simp [hv])]
      · rw [findJapanValue_cons, if_pos (by simp [hv]),
          List.find?_cons_of_pos _ hv]

/-- Sample attribute list for the spec's concrete example: one
attribute named 原產地 with values Japan and Korea. -/
def originExample : CatAttr :=
  { original_attribute_name := "原產地"
    display_attribute_name := ""
    attribute_id := some 5000
    attribute_value_list :=
      [ { original_value_name := "Japan", display_value_name := "", value_id := some 111 },
        { original_value_name := "Korea", display_value_name := "", value_id := some 222 } ] }

/-- C7: the resolver returns, for the first attribute in list order
whose combined name contains a country keyword (case-insensitively),
that attribute's id and the id of its first Japan-named value — the
sentinel 0 when no such value exists — still as a non-`none` result;
it returns `none` exactly when no attribute matches.  For the concrete
原產地/[Japan, Korea] list it returns the attribute's id 5000 with
Japan's value id 111. -/
theorem c7_find_origin_attribute :
    (∀ attrs : List CatAttr,
      find_country_of_origin_attribute attrs
        = (attrs.find? attrNameMatches).map (fun attr =>
            { attribute_id := attr.attribute_id
              value_id :=
                (match attr.attribute_value_list.find? valNameJapan with
                 | some v => v.value_id.getD 0
                 | Option.none => 0)
              original_value_name := "日本" })) ∧
    find_country_of_origin_attribute [originExample]
      = some { attribute_id := some 5000, value_id := 111,
               original_value_name := "日本" } := by
  constructor
  · intro attrs
    induction attrs with
    | nil => simp [find_country_of_origin_attribute]
    | cons attr rest ih =>
        cases ha : attrNameMatches attr
        · rw [findOrigin_cons, if_neg (by simp [ha]), ih,
            List.find?_cons_of_neg _ (by simp [ha])]
        · rw [findOrigin_cons, if_pos (by simp [ha]),
            List.find?_cons_of_pos _ ha]
          simp [findJapanValue_spec]
  · decide

/-- Extract the payload of a conversion known to succeed (used only to
name concrete outputs in closed statements). -/
def getOk (r : Except String ShopeeProduct) : ShopeeProduct :=
  match r with
  | Except.ok sp => sp
  | Except.error _ => default

/-- Core description of a successful conversion: the fields of the
result that the single-variant path determines, in terms of the price
and weight computed from the first variant. -/
theorem conv_ok_base {p : ShopifyProduct} {cat : ℤ} {imgs : List String}
    {ct : String} {coa : Option OriginAttr} {er mr : ℚ} {po : Bool} {dts : ℤ}
    {sp : ShopeeProduct}
    (h : shopify_to_shopee_product p cat imgs ct coa er mr po dts = Except.ok sp) :
    ∃ pw, firstVariantPW p.variants er mr = Except.ok pw ∧
      sp.item_name = strTake 120 (titleLead ++ (p.title).getD "商品") ∧
      sp.original_price = (if pw.1 ≥ 10 then pw.1 else 100) ∧
      sp.weight = pyRound2 pw.2 ∧
      sp.image_id_list = imgs ∧
      sp.attribute_list = (if cat ∈ FOOD_CATEGORY_IDS then foodAttributeList else []) := by
  obtain ⟨pw, wm, h1, h2, h3⟩ := conv_ok_elim h
  have hbase : wm.item_name = (baseListing p cat imgs pw.1 pw.2).item_name ∧
      wm.original_price = (baseListing p cat imgs pw.1 pw.2).original_price ∧
      wm.weight = (baseListing p cat imgs pw.1 pw.2).weight ∧
      wm.image_id_list = (baseListing p cat imgs pw.1 pw.2).image_id_list := by
    rcases applyTierModels_ok_cases h2 with heq | ⟨ms, _, _, _, heq⟩ <;> subst heq <;>
      exact ⟨rfl, rfl, rfl, rfl⟩
  refine ⟨pw, h1, ?_, ?_, ?_, ?_, ?_⟩
  · rw [h3, finishListing_item_name, hbase.1]; rfl
  · rw [h3, finishListing_original_price, hbase.2.1]; rfl
  · rw [h3, finishListing_weight, hbase.2.2.1]; rfl
  · rw [h3, finishListing_image_id_list, hbase.2.2.2]; rfl
  · rw [h3, finishListing_attribute_list]

/-- A truncated string has at most the requested number of code
points. -/
theorem strTake_length_le (n : ℕ) (s : String) : (strTake n s).length ≤ n := by
  simp only [strTake, String.length, List.length_take]
  exact min_le_left _ _

/-- Full description of a successful first-variant price/weight
computation. -/
theorem firstVariantPW_spec {fv : Variant} {rest : List Variant} {er mr : ℚ}
    {pw : ℤ × ℚ}
    (h : firstVariantPW (fv :: rest) er mr = Except.ok pw) :
    ∃ q w, pyFloatE (fv.price.getD (.num 0)) = Except.ok q ∧
      pyFloatE (pyOr (fv.weight.getD (.num 0)) (.num 0)) = Except.ok w ∧
      pw = (pyRound (q * er * mr),
            if w * weightUnitFactor (fv.weight_unit.getD "kg") < 0.1 then 0.1
            else w * weightUnitFactor (fv.weight_unit.getD "kg")) := by
  unfold firstVariantPW at h
  obtain ⟨q, hq, h⟩ := except_bind_ok h
  obtain ⟨w, hw, h⟩ := except_bind_ok h
  refine ⟨q, w, hq, hw, ?_⟩
  simpa [Pure.pure, Except.pure] using h.symm

/- ===== C6: title prefixing and truncation ===== -/

/-- C6: the produced title is the marketing tag concatenated with the
source title and then truncated to 120 code points (truncation after
concatenation), so the title never exceeds 120 code points. -/
theorem c6_title_truncation (p : ShopifyProduct) (cat : ℤ) (imgs : List String)
    (ct : String) (coa : Option OriginAttr) (er mr : ℚ) (po : Bool) (dts : ℤ)
    (sp : ShopeeProduct)
    (h : shopify_to_shopee_product p cat imgs ct coa er mr po dts = Except.ok sp) :
    sp.item_name = strTake 120 (titleLead ++ (p.title).getD "商品") ∧
    sp.item_name.length ≤ 120 := by
  obtain ⟨pw, _, ht, _⟩ := conv_ok_base h
  exact ⟨ht, ht ▸ strTake_length_le 120 _⟩

/-- A variant-free product whose title is far longer than the 120-point
budget. -/
def longTitleProduct : ShopifyProduct :=
  { id := Option.none
    title := some (String.mk (List.replicate 150 'A'))
    body_html := Option.none
    vendor := Option.none
    variants := []
    options := []
    images := [] }

unseal Rat.mul Rat.inv Rat.add Rat.sub Rat.ofScientific in
/-- Witness for C6 at a concrete over-long title. -/
theorem c6_title_truncation_witness :
    (getOk (shopify_to_shopee_product longTitleProduct 200 [] ""
        Option.none (21 / 100) (21 / 20) true 4)).item_name.length ≤ 120 :=
  (c6_title_truncation longTitleProduct 200 [] "" Option.none (21 / 100) (21 / 20)
    true 4
    (getOk (shopify_to_shopee_product longTitleProduct 200 [] ""
      Option.none (21 / 100) (21 / 20) true 4)) rfl).2

/- ===== C4: price rounding and the under-10 fallback ===== -/

/-- C4: the listing's base price is the rounded converted first-variant
price, replaced by exactly 100 (not clamped to 10) whenever the
rounded value is below 10; a model entry whose own converted price is
below 10 falls back to the product-level price when that is at least
10, else to 100. -/
theorem c4_price_fallback (p : ShopifyProduct) (cat : ℤ) (imgs : List String)
    (ct : String) (coa : Option OriginAttr) (er mr : ℚ) (po : Bool) (dts : ℤ)
    (sp : ShopeeProduct) (fv : Variant) (rest : List Variant) (q : ℚ)
    (hv : p.variants = fv :: rest)
    (hq : pyFloatE (fv.price.getD (.num 0)) = Except.ok q)
    (h : shopify_to_shopee_product p cat imgs ct coa er mr po dts = Except.ok sp) :
    (sp.original_price
        = if pyRound (q * er * mr) ≥ 10 then pyRound (q * er * mr) else 100) ∧
    (∀ (price : ℤ) (tv : List TierVariation) (v : Variant) (qv : ℚ)
        (me : ModelEntry) (st : ℤ),
      pyFloatE (v.price.getD (.num 0)) = Except.ok qv →
      variantModelEntry er mr price tv v = Except.ok (some (me, st)) →
      me.original_price
        = if pyRound (qv * er * mr) < 10 then (if price ≥ 10 then price else 100)
          else pyRound (qv * er * mr)) := by
  constructor
  · obtain ⟨pw, h1, _, hop, _⟩ := conv_ok_base h
    rw [hv] at h1
    obtain ⟨q', w', hq', hw', hpw⟩ := firstVariantPW_spec h1
    have hqq : q = q' := Except.ok.inj (hq ▸ hq')
    subst hqq
    rw [hop, hpw]
  · intro price tv v qv me st hqv hme
    unfold variantModelEntry at hme
    obtain ⟨q2, hq2, hme⟩ := except_bind_ok hme
    have hqq : qv = q2 := Except.ok.inj (hqv ▸ hq2)
    subst hqq
    have hres : (if tierIndexOf tv v = [] then Option.none
        else some (({ tier_index := tierIndexOf tv v,
                      normal_stock := variantStock v,
                      original_price :=
                        if pyRound (qv * er * mr) < 10
                        then (if price ≥ 10 then price else 100)
                        else pyRound (qv * er * mr) } : ModelEntry), variantStock v))
          = some (me, st) := by
      simpa [Pure.pure, Except.pure] using hme
    by_cases ht : tierIndexOf tv v = []
    · simp [ht] at hres
    · simp only [ht, if_neg, ite_false, Option.some.injEq, Prod.mk.injEq] at hres
      rw [← hres.1]

/-- Concrete variant for the C4 witness: source price 10, which
converts to 2, under the minimum. -/
def cheapVariant : Variant :=
  { price := some (.num 10), weight := Option.none, weight_unit := Option.none,
    inventory_quantity := Option.none, option1 := Option.none,
    option2 := Option.none }

/-- Concrete single-variant product around `cheapVariant`. -/
def cheapProduct : ShopifyProduct :=
  { id := Option.none, title := some "T", body_html := Option.none,
    vendor := Option.none, variants := [cheapVariant], options := [],
    images := [] }

/-- Concrete variant for the model-entry fallback: option Red resolving
to tier index 0. -/
def redVariant : Variant :=
  { price := some (.num 10), weight := Option.none, weight_unit := Option.none,
    inventory_quantity := Option.none, option1 := some "Red",
    option2 := Option.none }

unseal Rat.mul Rat.inv Rat.add Rat.sub Rat.ofScientific in
/-- Witness for C4: the concrete under-10 price becomes exactly 100 on
the listing, and a model entry with the same under-10 price falls back
to a product-level price of 220. -/
theorem c4_price_fallback_witness :
    (getOk (shopify_to_shopee_product cheapProduct 200 [] "" Option.none
        (21 / 100) (21 / 20) true 4)).original_price = 100 ∧
    (⟨[0], 900, 220⟩ : ModelEntry).original_price = 220 := by
  have hc := c4_price_fallback cheapProduct 200 [] "" Option.none
    (21 / 100) (21 / 20) true 4
    (getOk (shopify_to_shopee_product cheapProduct 200 [] "" Option.none
      (21 / 100) (21 / 20) true 4))
    cheapVariant [] 10 rfl rfl rfl
  constructor
  · rw [hc.1]; decide
  · rw [hc.2 220 [{ name := "Color", option_list := ["Red", "Blue"] }]
      redVariant 10 ⟨[0], 900, 220⟩ 900 rfl rfl]
    decide

/- ===== C5: weight conversion, floor and rounding ===== -/

unseal Rat.mul Rat.inv Rat.add Rat.sub Rat.ofScientific in
/-- C5: with a parseable first-variant weight, the listing weight is
the unit-converted kilogram weight floored at 0.1 kg and rounded to
two decimals; the conversion table maps g/grams to 1/1000, lb to
0.453592, oz to 0.0283495 and kg to 1; the emitted weight is always at
least 0.1 kg and has at most two decimal places. -/
theorem c5_weight_conversion (p : ShopifyProduct) (cat : ℤ) (imgs : List String)
    (ct : String) (coa : Option OriginAttr) (er mr : ℚ) (po : Bool) (dts : ℤ)
    (sp : ShopeeProduct) (fv : Variant) (rest : List Variant) (w : ℚ)
    (hv : p.variants = fv :: rest)
    (hw : pyFloatE (pyOr (fv.weight.getD (.num 0)) (.num 0)) = Except.ok w)
    (h : shopify_to_shopee_product p cat imgs ct coa er mr po dts = Except.ok sp) :
    sp.weight = pyRound2
        (if w * weightUnitFactor (fv.weight_unit.getD "kg") < 0.1 then 0.1
         else w * weightUnitFactor (fv.weight_unit.getD "kg")) ∧
    (weightUnitFactor "g" = 1 / 1000 ∧ weightUnitFactor "grams" = 1 / 1000 ∧
     weightUnitFactor "lb" = 0.453592 ∧ weightUnitFactor "oz" = 0.0283495 ∧
     weightUnitFactor "kg" = 1) ∧
    (1 / 10 : ℚ) ≤ sp.weight ∧ (∃ k : ℤ, sp.weight = (k : ℚ) / 100) := by
  obtain ⟨pw, h1, _, _, hwt, _⟩ := conv_ok_base h
  rw [hv] at h1
  obtain ⟨q', w', hq', hw', hpw⟩ := firstVariantPW_spec h1
  have hww : w = w' := Except.ok.inj (hw ▸ hw')
  subst hww
  have hsp : sp.weight = pyRound2
      (if w * weightUnitFactor (fv.weight_unit.getD "kg") < 0.1 then 0.1
       else w * weightUnitFactor (fv.weight_unit.getD "kg")) := by
    rw [hwt, hpw]
  refine ⟨hsp, ⟨by decide, by decide, by decide, by decide, by decide⟩, ?_, ?_⟩
  · -- the floored weight is at least 1/10, and pyRound2 preserves that
    set y : ℚ := (if w * weightUnitFactor (fv.weight_unit.getD "kg") < 0.1 then 0.1
      else w * weightUnitFactor (fv.weight_unit.getD "kg")) with hy
    have hy10 : (1 / 10 : ℚ) ≤ y := by
      rw [hy]
      split
      · norm_num
      · rename_i hlt
        rw [not_lt] at hlt
        calc (1 / 10 : ℚ) = 0.1 := by norm_num
          _ ≤ _ := hlt
    have h100 : ((10 : ℤ) : ℚ) ≤ y * 100 := by push_cast; linarith
    have hr : (10 : ℤ) ≤ pyRound (y * 100) := le_pyRound_of_le h100
    have hrq : (10 : ℚ) ≤ (pyRound (y * 100) : ℚ) := by exact_mod_cast hr
    rw [hsp]
    unfold pyRound2
    linarith
  · exact ⟨pyRound
      ((if w * weightUnitFactor (fv.weight_unit.getD "kg") < 0.1 then 0.1
        else w * weightUnitFactor (fv.weight_unit.getD "kg")) * 100), hsp⟩

/-- Concrete product for the C5 witness: first variant weighs 500 g. -/
def gramProduct : ShopifyProduct :=
  { id := Option.none, title := some "T", body_html := Option.none,
    vendor := Option.none,
    variants := [{ price := some (.num 1000), weight := some (.num 500),
                   weight_unit := some "g", inventory_quantity := some 3,
                   option1 := Option.none, option2 := Option.none }],
    options := [], images := [] }

unseal Rat.mul Rat.inv Rat.add Rat.sub Rat.ofScientific in
/-- Witness for C5 at the concrete 500 g product (0.5 kg emitted). -/
theorem c5_weight_conversion_witness :
    (1 / 10 : ℚ) ≤ (getOk (shopify_to_shopee_product gramProduct 200 [] ""
        Option.none (21 / 100) (21 / 20) true 4)).weight :=
  (c5_weight_conversion gramProduct 200 [] "" Option.none (21 / 100) (21 / 20)
    true 4
    (getOk (shopify_to_shopee_product gramProduct 200 [] "" Option.none
      (21 / 100) (21 / 20) true 4))
    { price := some (.num 1000), weight := some (.num 500),
      weight_unit := some "g", inventory_quantity := some 3,
      option1 := Option.none, option2 := Option.none }
    [] 500 rfl rfl rfl).2.2.1

/- ===== C2: malformed numeric strings ===== -/

/-- A product whose first variant carries the unparseable price string
"abc". -/
def malformedPriceProduct : ShopifyProduct :=
  { id := Option.none, title := some "T", body_html := Option.none,
    vendor := Option.none,
    variants := [{ price := some (.str "abc"), weight := some (.num 100),
                   weight_unit := some "g", inventory_quantity := some 1,
                   option1 := Option.none, option2 := Option.none }],
    options := [], images := [] }

/-- A product whose first variant has a fine price but the unparseable
weight string "heavy". -/
def malformedWeightProduct : ShopifyProduct :=
  { id := Option.none, title := some "T", body_html := Option.none,
    vendor := Option.none,
    variants := [{ price := some (.num 10), weight := some (.str "heavy"),
                   weight_unit := some "g", inventory_quantity := some 1,
                   option1 := Option.none, option2 := Option.none }],
    options := [], images := [] }

/-- C2 counterexample: on a malformed first-variant price string the
pure conversion does not return a listing with the value read as zero
— it raises (the `ValueError` of `float("abc")` propagates out of
`shopify_to_shopee_product`). -/
theorem c2_counterexample :
    shopify_to_shopee_product malformedPriceProduct 200 ["img"] "" Option.none
        (21 / 100) (21 / 20) true 4
      = Except.error "could not convert string to float" := rfl

/-- C2 (amended): a present, non-empty, unparseable numeric string in
the first variant's price or weight makes the conversion raise
`ValueError`, which propagates to the caller; the conversion never
reads such a value as zero. -/
theorem c2_malformed_raises (p : ShopifyProduct) (cat : ℤ) (imgs : List String)
    (ct : String) (coa : Option OriginAttr) (er mr : ℚ) (po : Bool) (dts : ℤ)
    (fv : Variant) (rest : List Variant) (s : String)
    (hv : p.variants = fv :: rest) :
    (fv.price = some (.str s) → parseFloat s = Option.none →
      shopify_to_shopee_product p cat imgs ct coa er mr po dts
        = Except.error "could not convert string to float") ∧
    (∀ q, pyFloatE (fv.price.getD (.num 0)) = Except.ok q →
      fv.weight = some (.str s) → s ≠ "" → parseFloat s = Option.none →
      shopify_to_shopee_product p cat imgs ct coa er mr po dts
        = Except.error "could not convert string to float") := by
  constructor
  · intro hp hs
    have hfv : firstVariantPW p.variants er mr
        = Except.error "could not convert string to float" := by
      simp only [hv, firstVariantPW]
      rw [hp]
      simp [pyFloatE, pyFloat, hs, Bind.bind, Except.bind, Option.getD]
    simp only [shopify_to_shopee_product, hfv]
    rfl
  · intro q hq hw hne hs
    have hfv : firstVariantPW p.variants er mr
        = Except.error "could not convert string to float" := by
      simp only [hv, firstVariantPW]
      rw [hw, hq]
      have htr : pyOr ((some (PyVal.str s)).getD (.num 0)) (.num 0) = .str s := by
        simp [pyOr, PyVal.truthy, hne, Option.getD]
      rw [htr]
      simp [pyFloatE, pyFloat, hs, Bind.bind, Except.bind]
    simp only [shopify_to_shopee_product, hfv]
    rfl

/-- Witness for the amended C2, at both concrete products. -/
theorem c2_malformed_raises_witness :
    shopify_to_shopee_product malformedPriceProduct 201 [] "" Option.none
        (21 / 100) (21 / 20) true 4
      = Except.error "could not convert string to float" ∧
    shopify_to_shopee_product malformedWeightProduct 201 [] "" Option.none
        (21 / 100) (21 / 20) true 4
      = Except.error "could not convert string to float" :=
  ⟨(c2_malformed_raises malformedPriceProduct 201 [] "" Option.none
      (21 / 100) (21 / 20) true 4
      { price := some (.str "abc"), weight := some (.num 100),
        weight_unit := some "g", inventory_quantity := some 1,
        option1 := Option.none, option2 := Option.none } [] "abc" rfl).1 rfl rfl,
   (c2_malformed_raises malformedWeightProduct 201 [] "" Option.none
      (21 / 100) (21 / 20) true 4
      { price := some (.num 10), weight := some (.str "heavy"),
        weight_unit := some "g", inventory_quantity := some 1,
        option1 := Option.none, option2 := Option.none } [] "heavy" rfl).2
      10 rfl rfl (by decide) rfl⟩

/- ===== C1: which variants contribute model entries ===== -/

/-- One variant whose option1 (Red) resolves but whose option2 (XL) is
absent from the declared Size values. -/
def unmappedOptionProduct : ShopifyProduct :=
  { id := Option.none, title := some "T", body_html := Option.none,
    vendor := Option.none,
    variants := [{ price := some (.num 100), weight := Option.none,
                   weight_unit := Option.none, inventory_quantity := some 3,
                   option1 := some "Red", option2 := some "XL" }],
    options := [{ name := some "Color", values := ["Red", "Blue"] },
                { name := some "Size", values := ["S", "M"] }],
    images := [] }

unseal Rat.mul Rat.inv Rat.add Rat.sub Rat.ofScientific in
/-- C1 counterexample: a variant with an unmapped option2 value ("XL")
is NOT excluded — the conversion still emits a model entry for it
(with the partial tier index [0]) and a seller-stock entry. -/
theorem c1_counterexample :
    (getOk (shopify_to_shopee_product unmappedOptionProduct 200 [] "" Option.none
        (21 / 100) (21 / 20) true 4)).model
      = some [{ tier_index := [0], normal_stock := 3, original_price := 22 }] ∧
    (getOk (shopify_to_shopee_product unmappedOptionProduct 200 [] "" Option.none
        (21 / 100) (21 / 20) true 4)).seller_stock = [3] := by decide

/-- The four-combination Color/Size product of the spec's example. -/
def fourVariantProduct : ShopifyProduct :=
  { id := Option.none, title := some "T", body_html := Option.none,
    vendor := Option.none,
    variants :=
      [ { price := some (.num 100), weight := Option.none,
          weight_unit := Option.none, inventory_quantity := some 7,
          option1 := some "Red", option2 := some "S" },
        { price := some (.num 100), weight := Option.none,
          weight_unit := Option.none, inventory_quantity := some 7,
          option1 := some "Red", option2 := some "M" },
        { price := some (.num 100), weight := Option.none,
          weight_unit := Option.none, inventory_quantity := some 7,
          option1 := some "Blue", option2 := some "S" },
        { price := some (.num 100), weight := Option.none,
          weight_unit := Option.none, inventory_quantity := some 7,
          option1 := some "Blue", option2 := some "M" } ],
    options := [{ name := some "Color", values := ["Red", "Blue"] },
                { name := some "Size", values := ["S", "M"] }],
    images := [] }

unseal Rat.mul Rat.inv Rat.add Rat.sub Rat.ofScientific in
/-- C1 (amended): whenever the conversion returns a listing carrying a
model list, the sequence of tier indices in that list is exactly the
variant list filtered to the variants with a NON-EMPTY tier index — a
variant is emitted when at least one (not all) of its present option
values resolves in the lookup, carrying only the resolved indices —
and the seller-stock list carries those same variants' stocks in
order; the four-combination Color/Size example yields exactly the four
entries [0,0], [0,1], [1,0], [1,1] in variant order. -/
theorem c1_model_inclusion :
    (∀ (p : ShopifyProduct) (cat : ℤ) (imgs : List String) (ct : String)
        (coa : Option OriginAttr) (er mr : ℚ) (po : Bool) (dts : ℤ)
        (sp : ShopeeProduct) (ml : List ModelEntry),
      shopify_to_shopee_product p cat imgs ct coa er mr po dts = Except.ok sp →
      sp.model = some ml →
      ml.map ModelEntry.tier_index
          = p.variants.filterMap (fun v =>
              if tierIndexOf (tierVariationOf p.options) v = [] then Option.none
              else some (tierIndexOf (tierVariationOf p.options) v)) ∧
      sp.seller_stock
          = p.variants.filterMap (fun v =>
              if tierIndexOf (tierVariationOf p.options) v = [] then Option.none
              else some (variantStock v))) ∧
    (getOk (shopify_to_shopee_product fourVariantProduct 200 [] "" Option.none
        (21 / 100) (21 / 20) true 4)).model
      = some [ { tier_index := [0, 0], normal_stock := 7, original_price := 22 },
               { tier_index := [0, 1], normal_stock := 7, original_price := 22 },
               { tier_index := [1, 0], normal_stock := 7, original_price := 22 },
               { tier_index := [1, 1], normal_stock := 7, original_price := 22 } ] := by
  constructor
  · intro p cat imgs ct coa er mr po dts sp ml h hm
    obtain ⟨pw, wm, h1, h2, h3⟩ := conv_ok_elim h
    have hmodel : sp.model = wm.model := by rw [h3, finishListing_model]
    have hstock : sp.seller_stock = wm.seller_stock := by
      rw [h3, finishListing_seller_stock]
    rcases applyTierModels_ok_cases h2 with heq | ⟨ms, hms, _, _, heq⟩
    · exfalso
      rw [heq] at hmodel
      rw [hmodel] at hm
      simp [baseListing] at hm
    · obtain ⟨ht1, ht2, _⟩ := modelLoop_ok_spec hms
      rw [heq] at hmodel hstock
      simp only at hmodel hstock
      rw [hmodel] at hm
      have hml : ml = ms.1 := by
        simpa using hm.symm
      subst hml
      exact ⟨ht1, by rw [hstock, ht2]⟩
  · decide

unseal Rat.mul Rat.inv Rat.add Rat.sub Rat.ofScientific in
/-- Witness for the amended C1, applied at the four-variant example. -/
theorem c1_model_inclusion_witness :
    (getOk (shopify_to_shopee_product fourVariantProduct 200 [] "" Option.none
        (21 / 100) (21 / 20) true 4)).seller_stock
      = fourVariantProduct.variants.filterMap (fun v =>
          if tierIndexOf (tierVariationOf fourVariantProduct.options) v = []
          then Option.none
          else some (variantStock v)) :=
  (c1_model_inclusion.1 fourVariantProduct 200 [] "" Option.none
    (21 / 100) (21 / 20) true 4
    (getOk (shopify_to_shopee_product fourVariantProduct 200 [] "" Option.none
      (21 / 100) (21 / 20) true 4))
    [ { tier_index := [0, 0], normal_stock := 7, original_price := 22 },
      { tier_index := [0, 1], normal_stock := 7, original_price := 22 },
      { tier_index := [1, 0], normal_stock := 7, original_price := 22 },
      { tier_index := [1, 1], normal_stock := 7, original_price := 22 } ]
    rfl (by decide)).2

/- ===== C10: collection_title / country_origin_attr are never read ===== -/

/-- C10: two conversions differing only in `collection_title` and/or
`country_origin_attr` return identical listings, and the emitted
attribute list depends only on whether the category id is in the fixed
food set. -/
theorem c10_unused_inputs (p : ShopifyProduct) (cat : ℤ) (imgs : List String)
    (ct ct' : String) (coa coa' : Option OriginAttr) (er mr : ℚ)
    (po : Bool) (dts : ℤ) :
    shopify_to_shopee_product p cat imgs ct coa er mr po dts
      = shopify_to_shopee_product p cat imgs ct' coa' er mr po dts ∧
    (∀ sp, shopify_to_shopee_product p cat imgs ct coa er mr po dts = Except.ok sp →
      sp.attribute_list
        = if cat ∈ FOOD_CATEGORY_IDS then foodAttributeList else []) := by
  refine ⟨rfl, fun sp h => ?_⟩
  obtain ⟨pw, _, _, _, _, _, ha⟩ := conv_ok_base h
  exact ha

unseal Rat.mul Rat.inv Rat.add Rat.sub Rat.ofScientific in
/-- Witness for C10 on a food category with two different origin
attributes and collection titles. -/
theorem c10_unused_inputs_witness :
    (getOk (shopify_to_shopee_product gramProduct 100629 [] "colA"
        (some { attribute_id := some 1, value_id := 2,
                original_value_name := "日本" })
        (21 / 100) (21 / 20) true 4)).attribute_list
      = (if (100629 : ℤ) ∈ FOOD_CATEGORY_IDS then foodAttributeList else []) :=
  (c10_unused_inputs gramProduct 100629 [] "colA" "colB"
    (some { attribute_id := some 1, value_id := 2, original_value_name := "日本" })
    Option.none (21 / 100) (21 / 20) true 4).2
    (getOk (shopify_to_shopee_product gramProduct 100629 [] "colA"
      (some { attribute_id := some 1, value_id := 2,
              original_value_name := "日本" })
      (21 / 100) (21 / 20) true 4)) rfl

/- ===== C3: fatal product fetch ===== -/

/-- An environment whose collection fetch fails outright. -/
def fetchFailEnv : SyncEnv :=
  { attrs_result := { success := false, attributes := [] }
    products_result := { success := false, products := [], error := some "boom" }
    upload := fun _ => { success := false, image_id := Option.none, error := Option.none }
    create := fun _ => { success := false, item_id := Option.none, error := Option.none } }

/-- Request parameters shared by the concrete sync scenarios. -/
def sampleConfig : SyncConfig :=
  { collection_title := "col", category_id := 200, logistic_ids := [],
    exchange_rate := 21 / 100, markup_rate := 21 / 20 }

/-- C3 counterexample: on a failed product fetch the handler's response
carries NO `results` key and NO `summary` key (the early-return dict
has only success/error/debug), so the caller does not receive the
`results[]`-and-`summary{...}` shape the claim promises. -/
theorem c3_counterexample :
    (api_sync_collection fetchFailEnv sampleConfig).1.results = Option.none ∧
    (api_sync_collection fetchFailEnv sampleConfig).1.summary = Option.none ∧
    (api_sync_collection fetchFailEnv sampleConfig).1.success = false ∧
    (api_sync_collection fetchFailEnv sampleConfig).1.error
      = some "無法獲取 Shopify 商品: boom" := by decide

/-- C3 (amended): if the product fetch fails, or succeeds with an empty
product list, the handler returns immediately — success=false, an
error message, no per-product processing — but the early-return
response carries no `results` or `summary` fields; the failure is
still delivered as a JSON response rather than an unhandled fault. -/
theorem c3_fatal_fetch (env : SyncEnv) (cfg : SyncConfig)
    (h : env.products_result.success = false ∨ env.products_result.products = []) :
    (api_sync_collection env cfg).1.success = false ∧
    ((api_sync_collection env cfg).1.error).isSome = true ∧
    (api_sync_collection env cfg).1.results = Option.none ∧
    (api_sync_collection env cfg).1.summary = Option.none ∧
    (api_sync_collection env cfg).2 = [] := by
  unfold api_sync_collection
  cases hfs : env.products_result.success with
  | false => simp [hfs]
  | true =>
      have hp : env.products_result.products = [] := by
        rcases h with h | h
        · rw [hfs] at h; cases h
        · exact h
      simp [hfs, hp]

/-- Witness for the amended C3 at the concrete failing environment. -/
theorem c3_fatal_fetch_witness :
    (api_sync_collection fetchFailEnv sampleConfig).1.success = false ∧
    (api_sync_collection fetchFailEnv sampleConfig).2 = [] :=
  ⟨(c3_fatal_fetch fetchFailEnv sampleConfig (Or.inl rfl)).1,
   (c3_fatal_fetch fetchFailEnv sampleConfig (Or.inl rfl)).2.2.2.2⟩

/- ===== C8 / C9: the per-product loop ===== -/

/-- Product A of the spec's example: one image whose upload will
fail. -/
def prodA : ShopifyProduct :=
  { id := some 1, title := some "A", body_html := Option.none,
    vendor := Option.none, variants := [], options := [],
    images := [some "a.jpg"] }

/-- Product B of the spec's example: one image whose upload
succeeds. -/
def prodB : ShopifyProduct :=
  { id := some 2, title := some "B", body_html := Option.none,
    vendor := Option.none, variants := [], options := [],
    images := [some "b.jpg"] }

/-- Environment for the A/B example: uploads fail except for B's image,
listing creation succeeds. -/
def abEnv : SyncEnv :=
  { attrs_result := { success := false, attributes := [] }
    products_result := { success := true, products := [prodA, prodB],
                         error := Option.none }
    upload := fun u =>
      if u = "b.jpg" then
        { success := true, image_id := some "handle-b", error := Option.none }
      else
        { success := false, image_id := Option.none,
          error := some "download failed" }
    create := fun _ =>
      { success := true, item_id := some 777, error := Option.none } }

unseal Rat.mul Rat.inv Rat.add Rat.sub Rat.ofScientific in
/-- C8: once per-product processing is reached, every product yields
its own result, in source order, each computed from that product alone
(so one product's failure cannot touch another's result); the summary
counts total = number of results, success = number of successful
results, failed = the difference; the overall success flag is true
exactly when at least one product succeeded.  On the concrete A/B
example (A's only image upload fails, B succeeds) the summary is
total=2, success=1, failed=1 with results in source order. -/
theorem c8_isolated_results_and_summary :
    (∀ (env : SyncEnv) (cfg : SyncConfig),
      env.products_result.success = true →
      env.products_result.products ≠ [] →
      (api_sync_collection env cfg).1.results
          = some (env.products_result.products.map
              (fun prod => (processProduct env cfg (originAttrFor env) prod).1)) ∧
      (api_sync_collection env cfg).1.summary
          = some { total := env.products_result.products.length,
                   success := ((env.products_result.products.map
                       (fun prod => (processProduct env cfg (originAttrFor env) prod).1)).filter
                       (fun r => r.success)).length,
                   failed := env.products_result.products.length
                     - ((env.products_result.products.map
                       (fun prod => (processProduct env cfg (originAttrFor env) prod).1)).filter
                       (fun r => r.success)).length } ∧
      ((api_sync_collection env cfg).1.success = true ↔
        0 < ((env.products_result.products.map
            (fun prod => (processProduct env cfg (originAttrFor env) prod).1)).filter
            (fun r => r.success)).length)) ∧
    ((api_sync_collection abEnv sampleConfig).1.summary
        = some { total := 2, success := 1, failed := 1 } ∧
     (api_sync_collection abEnv sampleConfig).1.results
        = some [ { shopify_id := some 1, title := some "A", success := false,
                   shopee_item_id := Option.none,
                   error := some "沒有成功上傳任何圖片" },
                 { shopify_id := some 2, title := some "B", success := true,
                   shopee_item_id := some 777, error := Option.none } ]) := by
  constructor
  · intro env cfg hfs hne
    unfold api_sync_collection
    simp [hfs, hne, List.map_map, decide_eq_true_eq, Function.comp_def]
  · constructor
    · decide
    · decide

unseal Rat.mul Rat.inv Rat.add Rat.sub Rat.ofScientific in
/-- Witness for C8 at the concrete A/B environment. -/
theorem c8_isolated_results_and_summary_witness :
    (api_sync_collection abEnv sampleConfig).1.results
      = some (abEnv.products_result.products.map
          (fun prod =>
            (processProduct abEnv sampleConfig (originAttrFor abEnv) prod).1)) :=
  (c8_isolated_results_and_summary.1 abEnv sampleConfig rfl (by decide)).1

/-- Product whose single image uploads fine but whose variant price is
the malformed string "abc", so the conversion step raises. -/
def uploadOkBadPriceProduct : ShopifyProduct :=
  { id := some 3, title := some "C", body_html := Option.none,
    vendor := Option.none,
    variants := [{ price := some (.str "abc"), weight := Option.none,
                   weight_unit := Option.none, inventory_quantity := Option.none,
                   option1 := Option.none, option2 := Option.none }],
    options := [], images := [some "c.jpg"] }

/-- Environment where every upload succeeds and creation succeeds. -/
def allOkEnv : SyncEnv :=
  { attrs_result := { success := false, attributes := [] }
    products_result := { success := true, products := [uploadOkBadPriceProduct],
                         error := Option.none }
    upload := fun _ =>
      { success := true, image_id := some "h1", error := Option.none }
    create := fun _ =>
      { success := true, item_id := some 9, error := Option.none } }

/-- C9 counterexample: for a product whose image upload succeeded (one
handle collected), listing creation still does NOT proceed — the
conversion between upload and creation raises on the malformed price,
so `create_product` is never called even though at least one upload
succeeded. -/
theorem c9_counterexample :
    (allOkEnv.upload "c.jpg").success = true ∧
    collectedHandles allOkEnv (imageUrlsOf uploadOkBadPriceProduct) = ["h1"] ∧
    (processProduct allOkEnv sampleConfig Option.none
        uploadOkBadPriceProduct).2.createdWith = Option.none ∧
    (processProduct allOkEnv sampleConfig Option.none
        uploadOkBadPriceProduct).1.error
      = some "could not convert string to float" := by decide

/-- C9 (amended): a product with no truthy image URLs fails with the
"no images" error, attempting neither an upload nor a creation; at
most 9 uploads are ever attempted; with images present and zero
collected handles the product fails with the "no images uploaded"
error and `create_product` is not called; and when at least one handle
is collected AND the conversion succeeds, `create_product` is called
with exactly the collected handles. -/
theorem c9_image_pipeline (env : SyncEnv) (cfg : SyncConfig)
    (coa : Option OriginAttr) (p : ShopifyProduct) :
    (imageUrlsOf p = [] →
      (processProduct env cfg coa p).1.success = false ∧
      (processProduct env cfg coa p).1.error = some "商品沒有圖片" ∧
      (processProduct env cfg coa p).2.uploadsAttempted = 0 ∧
      (processProduct env cfg coa p).2.createdWith = Option.none) ∧
    (processProduct env cfg coa p).2.uploadsAttempted ≤ 9 ∧
    (imageUrlsOf p ≠ [] → collectedHandles env (imageUrlsOf p) = [] →
      (processProduct env cfg coa p).1.success = false ∧
      (processProduct env cfg coa p).1.error = some "沒有成功上傳任何圖片" ∧
      (processProduct env cfg coa p).2.createdWith = Option.none) ∧
    (∀ sp, collectedHandles env (imageUrlsOf p) ≠ [] →
      shopify_to_shopee_product p cfg.category_id
          (collectedHandles env (imageUrlsOf p)) cfg.collection_title coa
          cfg.exchange_rate cfg.markup_rate true 4 = Except.ok sp →
      (processProduct env cfg coa p).2.createdWith
        = some (collectedHandles env (imageUrlsOf p))) := by
  refine ⟨?_, ?_, ?_, ?_⟩
  · intro h0
    simp [processProduct, h0]
  · simp only [processProduct]
    repeat' split
    all_goals simp [List.length_take, min_le_left]
  · intro h0 h1
    simp [processProduct, h0, h1]
  · intro sp hne hconv
    obtain ⟨pw, _, _, _, _, himg, _⟩ := conv_ok_base hconv
    have h0 : ¬ (imageUrlsOf p = []) := fun h => hne (by rw [h]; rfl)
    simp only [processProduct]
    rw [if_neg h0, if_neg hne, hconv]
    split
    · rename_i e heq
      simp at heq
    · rename_i sp2 heq
      obtain rfl := Except.ok.inj heq
      split <;> simp [apply_ite, himg]

unseal Rat.mul Rat.inv Rat.add Rat.sub Rat.ofScientific in
/-- Witness for the amended C9: on the A/B environment's product B the
creation call receives exactly the collected handle list. -/
theorem c9_image_pipeline_witness :
    (processProduct abEnv sampleConfig Option.none prodB).2.createdWith
      = some (collectedHandles abEnv (imageUrlsOf prodB)) :=
  (c9_image_pipeline abEnv sampleConfig Option.none prodB).2.2.2
    (getOk (shopify_to_shopee_product prodB sampleConfig.category_id
      (collectedHandles abEnv (imageUrlsOf prodB)) sampleConfig.collection_title
      Option.none sampleConfig.exchange_rate sampleConfig.markup_rate true 4))
    (by decide) rfl

end GotoShopee
